import Mathlib

/-
Verification of the academic-content gating and response-composition pipeline
of the Smart-Study-Research-Assistant backend.

The Python source (backend/services/gemini_client.py, backend/routes/chat.py)
is embedded shallowly:
  - Python strings are Lean `String`s; the Python string operations used by the
    source (slicing, lower/upper, strip, substring membership) are modelled
    over `String.data` by the `py*` helpers below, with Python semantics
    (negative slice indices count from the end, `strip` removes Python
    whitespace from both ends, `in` is substring containment).
  - The external generative model (`self.model.generate_content`) is an
    explicit oracle parameter `Oracle : String → Except String String`:
    `.ok reply` models a returned reply, `.error e` models a raised exception.
  - The four `re.search` patterns of `is_academic_question` are embedded as
    explicit regular-expression ASTs (`RE`) together with a backtracking
    matcher implementing Python `re` semantics for the constructs they use
    (literals, alternation groups, `\s+`, `.*`, and the word boundary `\b`).
-/

/-! ## Python string primitives -/

/-- Python whitespace (`str.strip`, `\s`): space, tab, newline, carriage
return, vertical tab, form feed. -/
def isPyWs (c : Char) : Bool :=
  c == ' ' || c == '\t' || c == '\n' || c == '\r' || c == '\x0b' || c == '\x0c'

/-- Python `s[:n]` for a nonnegative bound `n`. -/
def pyTake (s : String) (n : Nat) : String :=
  ⟨s.data.take n⟩

/-- Python `s[:i]` for a possibly negative bound `i`: a negative bound counts
from the end of the string, clamped at 0. -/
def pySliceTo (s : String) (i : Int) : String :=
  if 0 ≤ i then ⟨s.data.take i.toNat⟩
  else ⟨s.data.take (s.data.length - (-i).toNat)⟩

/-- Python `str.lower` (ASCII, which covers every keyword of the source). -/
def pyLower (s : String) : String :=
  ⟨s.data.map Char.toLower⟩

/-- Python `str.upper` (ASCII). -/
def pyUpper (s : String) : String :=
  ⟨s.data.map Char.toUpper⟩

/-- Python `str.strip()`: drop whitespace at both ends. -/
def pyStrip (s : String) : String :=
  ⟨((s.data.dropWhile isPyWs).reverse.dropWhile isPyWs).reverse⟩

/-- Helper for Python substring membership: does `needle` occur as a
contiguous sublist of the haystack? -/
def subList (needle : List Char) : List Char → Bool
  | [] => needle.isEmpty
  | c :: rest => needle.isPrefixOf (c :: rest) || subList needle rest

/-- Python `needle in hay` on strings: substring containment. -/
def pyContains (hay needle : String) : Bool :=
  subList needle.data hay.data

/-- Python list slice `l[-n:]`: the last `n` elements (the whole list when it
is shorter than `n`). -/
def pyLastSlice (n : Nat) (l : List α) : List α :=
  l.drop (l.length - n)

/-! ## A small regular-expression engine (Python `re` semantics for the
constructs used by the source's four patterns) -/

/-- Regular-expression ASTs for the constructs appearing in the source's
`academic_patterns`: literals, `.`, `\s`, the zero-width word boundary `\b`,
concatenation, alternation, and Kleene star (used only as `.*` and `\s*`,
whose bodies always consume a character). -/
inductive RE where
  | eps : RE
  | lit : Char → RE
  | anychar : RE
  | wsp : RE
  | bnd : RE
  | seq : RE → RE → RE
  | alt : RE → RE → RE
  | star : RE → RE
  deriving Repr

/-- Python `\w`: word characters are alphanumerics and the underscore. -/
def isWordChar (c : Char) : Bool :=
  c.isAlphanum || c == '_'

/-- Python `\b` holds between a word character and a non-word character (the
ends of the string count as non-word). `prev` is the character immediately
before the current position, if any. -/
def atBoundary (prev : Option Char) (rest : List Char) : Bool :=
  let a := match prev with
    | none => false
    | some c => isWordChar c
  let b := match rest with
    | [] => false
    | c :: _ => isWordChar c
  a != b

/-- Node count of a regular expression, used to size the matcher's fuel. -/
def reSize : RE → Nat
  | .eps | .lit _ | .anychar | .wsp | .bnd => 1
  | .seq a b | .alt a b => reSize a + reSize b + 1
  | .star a => reSize a + 1

/-- Backtracking matcher: all ways `r` can match a front segment of `s`,
returned as the possible (previous character, remaining suffix) pairs.
`prev` is the character immediately before `s`, needed for `\b`.  The star
case only keeps continuations that consumed at least one character (every
starred body in the source's patterns — `.` and `\s` — consumes exactly one
character per iteration, so this is exact for them).  Recursion is
structural on `fuel`, spending one unit per node visited; since every
recursive call moves to a proper subexpression or to a star on a strictly
shorter suffix, `(reSize r + 2) * (length of s + 2)` units are ample for the
source's patterns (whose starred bodies are single nodes), and the fuel-0
branch is never reached at the call site `reSearch` below. -/
def reMatch (fuel : Nat) (r : RE) (p : Option Char) (s : List Char) :
    List (Option Char × List Char) :=
  match fuel with
  | 0 => []
  | fuel + 1 =>
    match r with
    | .eps => [(p, s)]
    | .lit c =>
      match s with
      | [] => []
      | x :: xs => if x == c then [(some x, xs)] else []
    | .anychar =>
      match s with
      | [] => []
      | x :: xs => if x == '\n' then [] else [(some x, xs)]
    | .wsp =>
      match s with
      | [] => []
      | x :: xs => if isPyWs x then [(some x, xs)] else []
    | .bnd => if atBoundary p s then [(p, s)] else []
    | .seq a b => (reMatch fuel a p s).flatMap (fun q => reMatch fuel b q.1 q.2)
    | .alt a b => reMatch fuel a p s ++ reMatch fuel b p s
    | .star a =>
      (p, s) ::
        ((reMatch fuel a p s).filter (fun q => q.2.length < s.length)).flatMap
          (fun q => reMatch fuel (.star a) q.1 q.2)

/-- Try to match `r` at every start position of the character list, threading
the preceding character for `\b`. -/
def searchAux (r : RE) : Option Char → List Char → Bool
  | p, s =>
    !(reMatch ((reSize r + 2) * (s.length + 2)) r p s).isEmpty ||
      (match s with
        | [] => false
        | c :: rest => searchAux r (some c) rest)

/-- Python `re.search(r, s) is not None`. -/
def reSearch (r : RE) (s : String) : Bool :=
  searchAux r none s.data

/-- Concatenation of a list of ASTs. -/
def rcat (rs : List RE) : RE :=
  rs.foldr RE.seq .eps

/-- Literal word as an AST. -/
def rlit (w : String) : RE :=
  rcat (w.data.map RE.lit)

/-- Alternation group `(w₁|w₂|...)` of literal words. -/
def ralts (ws : List String) : RE :=
  match ws with
  | [] => .eps
  | [w] => rlit w
  | w :: rest => .alt (rlit w) (ralts rest)

/-- Python `\s+`. -/
def wsPlus : RE :=
  .seq .wsp (.star .wsp)

/-- Python `.*`. -/
def dotStar : RE :=
  .star .anychar

/-! ## GeminiService: prompts and keyword tables (gemini_client.py) -/

/-- `self.academic_checker_prompt` (gemini_client.py lines 13-38), exact
whitespace included. -/
def academic_checker_prompt : String :=
  "\n        You are an academic content classifier. Your task is to determine if the given content is academic in nature.\n        \n"
    ++ "        Academic content includes:\n"
    ++ "        - Research papers, studies, and scholarly articles\n"
    ++ "        - Educational materials and textbooks\n"
    ++ "        - Scientific data and analysis\n"
    ++ "        - Academic presentations and lectures\n"
    ++ "        - Thesis and dissertation content\n"
    ++ "        - Course materials and syllabi\n"
    ++ "        - Academic journals and publications\n"
    ++ "        - Educational assessments and assignments\n        \n"
    ++ "        Non-academic content includes:\n"
    ++ "        - Personal documents (resumes, letters, etc.)\n"
    ++ "        - Entertainment content (novels, movies, games, etc.)\n"
    ++ "        - Commercial or marketing materials\n"
    ++ "        - Social media content\n"
    ++ "        - News articles (unless specifically academic research)\n"
    ++ "        - General web content\n"
    ++ "        - Personal photos or casual images\n        \n"
    ++ "        Respond with only \"ACADEMIC\" or \"NON_ACADEMIC\" based on the content classification.\n        \n"
    ++ "        Content to classify:\n        "

/-- `self.system_prompt` (gemini_client.py lines 41-54), exact whitespace
included. -/
def system_prompt : String :=
  "\n        You are an AI assistant specialized in academic research and study. Your primary function is to help users understand and analyze academic content from their uploaded documents.\n\n"
    ++ "        IMPORTANT GUIDELINES:\n"
    ++ "        1. You ONLY answer questions related to academic research and study\n"
    ++ "        2. If a question is not academic in nature, politely decline and explain your purpose\n"
    ++ "        3. Base your answers on the provided document content when available\n"
    ++ "        4. If asked about non-academic content in a document, respond: \"The information found in this document is not academic related, and this application is built for academic study and research.\"\n"
    ++ "        5. Provide clear, well-structured, and educational responses\n"
    ++ "        6. Cite specific parts of documents when referencing them\n"
    ++ "        7. Encourage further academic inquiry and learning\n\n"
    ++ "        Always maintain a helpful, professional, and educational tone.\n        "

/-- `academic_keywords` of `is_academic_question` (gemini_client.py 70-77). -/
def academic_keywords : List String :=
  ["research", "study", "analysis", "theory", "hypothesis", "methodology",
   "literature", "academic", "scholarly", "scientific", "experiment",
   "data", "findings", "conclusion", "abstract", "thesis", "dissertation",
   "journal", "publication", "citation", "reference", "bibliography",
   "education", "learning", "course", "curriculum", "syllabus",
   "concept", "principle", "framework", "model", "paradigm"]

/-- `non_academic_keywords` of `is_academic_question` (gemini_client.py
79-83). -/
def non_academic_keywords : List String :=
  ["entertainment", "movie", "game", "music", "celebrity", "gossip",
   "shopping", "recipe", "cooking", "fashion", "sports", "weather",
   "personal", "relationship", "dating", "social media", "meme"]

/-- First pattern of `academic_patterns` (gemini_client.py line 99). -/
def pat1 : RE :=
  rcat [.bnd, ralts ["what", "how", "why", "when", "where"], wsPlus,
        ralts ["is", "are", "does", "do", "did", "can", "could", "would", "should"],
        .bnd, dotStar, .bnd,
        ralts ["concept", "theory", "principle", "method", "approach", "framework"],
        .bnd]

/-- Second pattern of `academic_patterns` (gemini_client.py line 100). -/
def pat2 : RE :=
  rcat [.bnd, rlit "explain", wsPlus, ralts ["the", "this", "that", "how", "why"], .bnd]

/-- Third pattern of `academic_patterns` (gemini_client.py line 101). -/
def pat3 : RE :=
  rcat [.bnd,
        ralts ["analyze", "examine", "discuss", "evaluate", "compare", "contrast", "critique"],
        .bnd]

/-- Fourth pattern of `academic_patterns` (gemini_client.py line 102). -/
def pat4 : RE :=
  rcat [.bnd, ralts ["according to", "based on", "as mentioned in", "as stated in"],
        .bnd, dotStar, .bnd,
        ralts ["document", "paper", "text", "study", "research"], .bnd]

/-- `academic_patterns` (gemini_client.py 98-103). -/
def academic_patterns : List RE :=
  [pat1, pat2, pat3, pat4]

/-! ## GeminiService: classification -/

/-- The external generative model (`self.model.generate_content`): given the
prompt it either returns a reply (`.ok`) or raises (`.error`). -/
def Oracle : Type :=
  String → Except String String

/-- `GeminiService.is_academic_question` (gemini_client.py 68-110): scan the
lowercased question for non-academic keywords (immediately NON_ACADEMIC),
then academic keywords (ACADEMIC), then the structural patterns (ACADEMIC),
defaulting to ACADEMIC. -/
def is_academic_question (question : String) : Bool :=
  let question_lower := pyLower question
  if non_academic_keywords.any (fun k => pyContains question_lower k) then
    false
  else if academic_keywords.any (fun k => pyContains question_lower k) then
    true
  else if academic_patterns.any (fun p => reSearch p question_lower) then
    true
  else
    true

/-- `GeminiService.is_academic_content` (gemini_client.py 56-66): send the
checker prompt plus the first 2000 characters of the content to the external
model; the stripped, uppercased reply must equal "ACADEMIC"; a raised
exception is swallowed and defaults to ACADEMIC. -/
def is_academic_content (oracle : Oracle) (content : String) : Bool :=
  match oracle (academic_checker_prompt ++ pyTake content 2000) with
  | .ok text =>
    let classification := pyUpper (pyStrip text)
    classification == "ACADEMIC"
  | .error _ => true

/-! ## GeminiService: response generation (gemini_client.py 142-206)

The context-part strings below contain literal backslash-n two-character
sequences, exactly as in the source (which writes "\\n" inside ordinary
Python string literals). -/

/-- One turn of a conversation (`{'role': ..., 'content': ...}`). -/
structure Msg where
  role : String
  content : String
  deriving DecidableEq, Repr

/-- The dict returned by `generate_response`: only the keys the taken path
sets are present (`none` models an absent key). -/
structure GenResult where
  success : Bool
  response : Option String
  is_academic : Option Bool
  error : Option String
  deriving DecidableEq, Repr

/-- `generate_response` plus its externally visible effects: whether the
response-generation call to the external model was made, and which document
extracts were passed to `is_academic_content` (in order). -/
structure GenTrace where
  result : GenResult
  genCalled : Bool
  docsChecked : List String
  deriving DecidableEq, Repr

/-- Fixed off-topic refusal (gemini_client.py line 150). -/
def off_topic_refusal : String :=
  "I\x27m designed specifically for academic study and research purposes. Please ask questions related to academic content, research, or educational materials."

/-- Fixed non-academic-document refusal (gemini_client.py line 171). -/
def non_academic_doc_refusal : String :=
  "The information found in this document is not academic related, and this application is built for academic study and research."

/-- One history line: `f"\\n{role}: {msg['content']}"` with
`role = "User" if msg['role'] == 'user' else "Assistant"` (lines 184-185). -/
def renderMsg (m : Msg) : String :=
  "\\n" ++ (if m.role == "user" then "User" else "Assistant") ++ ": " ++ m.content

/-- `academic_docs` of the classification loop (lines 159-166). -/
def academicDocs (oracle : Oracle) (docs : List String) : List String :=
  docs.filter (fun d => is_academic_content oracle d)

/-- `non_academic_docs` of the classification loop (lines 159-166). -/
def nonAcademicDocs (oracle : Oracle) (docs : List String) : List String :=
  docs.filter (fun d => !(is_academic_content oracle d))

/-- The document section of the context (lines 175-178). -/
def docParts (ads : List String) : List String :=
  if ads.isEmpty then []
  else
    "\\n\\nDocument Content:"
      :: ads.enum.map (fun p => "\\n--- Document " ++ toString (p.1 + 1) ++ " ---\\n" ++ p.2)

/-- The history section of the context (lines 181-185): header plus the last
10 turns, oldest first. -/
def historyParts (chat_history : List Msg) : List String :=
  if chat_history.isEmpty then []
  else "\\n\\nPrevious Conversation:" :: (pyLastSlice 10 chat_history).map renderMsg

/-- `context_parts` as assembled on the non-short-circuit path (lines
154-189): system prompt, document section, history section, current
question, closing instruction. -/
def contextParts (oracle : Oracle) (question : String) (docs : List String)
    (history : List Msg) : List String :=
  [system_prompt] ++ docParts (academicDocs oracle docs) ++ historyParts history
    ++ ["\\n\\nCurrent Question: " ++ question,
        "\\n\\nPlease provide a comprehensive, academic response:"]

/-- `GeminiService.generate_response` (gemini_client.py 142-206), together
with its call trace.  Path order as in the source: off-topic question
short-circuit; document classification and the all-non-academic
short-circuit (only when `document_contents` is non-empty); otherwise one
generation call on the joined context, whose exception is caught as a
failure dict. -/
def generate_response (oracle : Oracle) (question : String)
    (document_contents : List String) (chat_history : List Msg) : GenTrace :=
  if !(is_academic_question question) then
    ⟨⟨true, some off_topic_refusal, some false, none⟩, false, []⟩
  else if !document_contents.isEmpty
      && !(nonAcademicDocs oracle document_contents).isEmpty
      && (academicDocs oracle document_contents).isEmpty then
    ⟨⟨true, some non_academic_doc_refusal, some false, none⟩, false, document_contents⟩
  else
    match oracle (String.join (contextParts oracle question document_contents chat_history)) with
    | .ok text => ⟨⟨true, some text, some true, none⟩, true, document_contents⟩
    | .error e =>
      ⟨⟨false, none, none, some ("Error generating response: " ++ e)⟩, true, document_contents⟩

/-! ## GeminiService: title and summary synthesis (gemini_client.py 112-140,
208-232) -/

/-- The f-string prompt of `generate_chat_title` (lines 115-127), exact
whitespace included. -/
def titlePrompt (first_message : String) (max_length : Nat) : String :=
  "\n            Generate a concise, descriptive title (maximum " ++ toString max_length
    ++ " characters) for a chat conversation based on this first message:\n            \n            \""
    ++ first_message
    ++ "\"\n            \n            The title should:\n"
    ++ "            - Be clear and specific\n"
    ++ "            - Capture the main topic or question\n"
    ++ "            - Be suitable for academic/research context\n"
    ++ "            - Not exceed " ++ toString max_length ++ " characters\n            \n"
    ++ "            Respond with only the title, no additional text.\n            "

/-- `GeminiService.generate_chat_title` (gemini_client.py 112-140): strip the
reply, hard-truncate with an ellipsis when it exceeds `max_length`; on an
exception fall back to the (possibly truncated) first message. -/
def generate_chat_title (oracle : Oracle) (first_message : String) (max_length : Nat) : String :=
  match oracle (titlePrompt first_message max_length) with
  | .ok t =>
    let title := pyStrip t
    if title.data.length > max_length then pySliceTo title ((max_length : Int) - 3) ++ "..."
    else title
  | .error _ =>
    if first_message.data.length > max_length then
      pySliceTo first_message ((max_length : Int) - 3) ++ "..."
    else first_message

/-- The f-string prompt of `summarize_document` (lines 211-222), exact
whitespace included. -/
def summaryPrompt (content : String) (max_length : Nat) : String :=
  "\n            Provide a concise summary (maximum " ++ toString max_length
    ++ " characters) of this academic document:\n            \n            "
    ++ content
    ++ "\n            \n            Focus on:\n"
    ++ "            - Main topic and objectives\n"
    ++ "            - Key findings or concepts\n"
    ++ "            - Relevance for academic study\n            \n"
    ++ "            Respond with only the summary.\n            "

/-- `GeminiService.summarize_document` (gemini_client.py 208-232): strip the
reply, hard-truncate with an ellipsis when it exceeds `max_length`; on an
exception return the fixed unavailable message embedding the error text. -/
def summarize_document (oracle : Oracle) (content : String) (max_length : Nat) : String :=
  match oracle (summaryPrompt content max_length) with
  | .ok t =>
    let summary := pyStrip t
    if summary.data.length > max_length then pySliceTo summary ((max_length : Int) - 3) ++ "..."
    else summary
  | .error e => "Document summary unavailable: " ++ e

/-! ## The send_message flow (routes/chat.py 121-197)

The persistence collaborator (supabase_service) is modelled by an explicit
environment of behaviors; the flow is embedded together with the list of
persistence write operations it performs, in order. -/

/-- A stored file record as `send_message` reads it: only the
`processed_content` field matters (`none` models a missing/None field). -/
structure FileRec where
  processed_content : Option String
  deriving DecidableEq, Repr

/-- Behavior of the persistence collaborator during one `send_message`
request: whether the chat lookup succeeds, the last message order,
success of `create_message` as a function of its arguments, and the results
of the message/file queries. -/
structure SendEnv where
  chat_exists : Bool
  last_order : Int
  create_message : String → String → Int → Bool
  messages_ok : Bool
  messages : List Msg
  files_ok : Bool
  files : List FileRec

/-- The HTTP outcome classes of `send_message`. -/
inductive SendResp where
  | badRequest : String → SendResp
  | notFound : SendResp
  | serverError : String → SendResp
  | created : SendResp
  deriving DecidableEq, Repr

/-- A persistence write performed by `send_message`: a `create_message`
call (content, role, order) or a chat-title update. -/
inductive Op where
  | createMessage : String → String → Int → Op
  | updateTitle : String → Op
  deriving DecidableEq, Repr

/-- The stripped request content (chat.py line 133). -/
def smContent (c : String) : String :=
  pyStrip c

/-- `document_contents` as collected from the file records (chat.py
159-166): processed contents that are present and non-empty (Python
truthiness), in order; empty when the file query fails. -/
def smDocs (env : SendEnv) : List String :=
  (if env.files_ok then env.files else []).filterMap
    (fun f => match f.processed_content with
      | some s => if s.data.isEmpty then none else some s
      | none => none)

/-- `chat_history[:-1]` as passed to generation (chat.py 155-157, 172):
the message query result (empty on failure) without its last element. -/
def smHistory (env : SendEnv) : List Msg :=
  (if env.messages_ok then env.messages else []).dropLast

/-- The generation call made by `send_message` (chat.py 169-173). -/
def smAI (env : SendEnv) (oracle : Oracle) (c : String) : GenTrace :=
  generate_response oracle (smContent c) (smDocs env) (smHistory env)

/-- `send_message` (routes/chat.py 121-197): validation, chat lookup, user
message persistence, generation, assistant message persistence, and the
first-message title update; returns the HTTP outcome class and the ordered
list of persistence writes performed. -/
def send_message (env : SendEnv) (oracle : Oracle) (raw : Option String) :
    SendResp × List Op :=
  match raw with
  | none => (.badRequest "Message content is required", [])
  | some c =>
    let content := smContent c
    if content.data.isEmpty then (.badRequest "Message content cannot be empty", [])
    else if !env.chat_exists then (.notFound, [])
    else
      let user_message_order := env.last_order + 1
      let assistant_message_order := env.last_order + 2
      if !(env.create_message content "user" user_message_order) then
        (.serverError "Failed to save user message",
         [.createMessage content "user" user_message_order])
      else
        let ai := smAI env oracle c
        if !ai.result.success then
          (.serverError ((ai.result.error).getD ""),
           [.createMessage content "user" user_message_order])
        else
          let resp := (ai.result.response).getD ""
          if !(env.create_message resp "assistant" assistant_message_order) then
            (.serverError "Failed to save assistant message",
             [.createMessage content "user" user_message_order,
              .createMessage resp "assistant" assistant_message_order])
          else
            (.created,
             [.createMessage content "user" user_message_order,
              .createMessage resp "assistant" assistant_message_order]
               ++ (if user_message_order == 1 then
                     [Op.updateTitle (generate_chat_title oracle content 50)]
                   else []))

/-! ## Concrete inputs used by witnesses and counterexamples -/

/-- A 2006-character text: an academic keyword in the first 2000 characters
and a non-academic keyword ("gossip") entirely beyond position 2000. -/
def c2text : String :=
  ⟨"research".data ++ List.replicate 1992 'a' ++ "gossip".data⟩

/-- An 11-turn history. -/
def histW : List Msg :=
  (List.range 11).map (fun i => ⟨"user", toString i⟩)

/-- A persistence environment in which the chat exists, every
`create_message` succeeds, and the message/file queries fail (yielding empty
history and no documents). -/
def envW : SendEnv :=
  ⟨true, 0, fun _ _ _ => true, false, [], false, []⟩

/-! ## Theorems for the claims -/

/-- Claim C1, counterexample: a reply that is neither "ACADEMIC" nor
"NON_ACADEMIC" is NOT treated as academic — `is_academic_content` returns
`false` on the reply "MAYBE", so the fail-open policy does not cover
unrecognized replies. -/
theorem c1_counterexample :
    (("MAYBE" : String) ≠ "ACADEMIC" ∧ ("MAYBE" : String) ≠ "NON_ACADEMIC") ∧
      is_academic_content (fun _ => Except.ok "MAYBE") "sample document text" = false :=
  ⟨⟨by decide, by decide⟩, by decide⟩

/-- Claim C1, amended: when the external call fails, `is_academic_content`
returns `true` (fail-open); when the call returns a reply whose stripped,
uppercased form is anything other than "ACADEMIC" — including "NON_ACADEMIC"
and unrecognized replies — it returns `false`. -/
theorem c1_amended (oracle : Oracle) (content : String) :
    (∀ e, oracle (academic_checker_prompt ++ pyTake content 2000) = .error e →
        is_academic_content oracle content = true) ∧
    (∀ r, oracle (academic_checker_prompt ++ pyTake content 2000) = .ok r →
        pyUpper (pyStrip r) ≠ "ACADEMIC" →
        is_academic_content oracle content = false) := by
  constructor
  · intro e he
    unfold is_academic_content
    rw [he]
  · intro r hr hne
    unfold is_academic_content
    rw [hr]
    simp [hne]

/-- Witness for `c1_amended`: a failing call yields `true`, an ok
"NON_ACADEMIC" reply yields `false`. -/
theorem c1_amended_witness :
    is_academic_content (fun _ => Except.error "boom") "doc" = true ∧
      is_academic_content (fun _ => Except.ok "NON_ACADEMIC") "doc" = false :=
  ⟨(c1_amended (fun _ => Except.error "boom") "doc").1 "boom" rfl,
   (c1_amended (fun _ => Except.ok "NON_ACADEMIC") "doc").2 "NON_ACADEMIC" rfl (by decide)⟩

set_option maxRecDepth 40000 in
/-- Claim C2, counterexample: the question path does NOT truncate to 2000
characters.  On a 2006-character text whose only non-academic keyword sits
beyond position 2000, `is_academic_question` returns `false` on the full
text but `true` on its first 2000 characters. -/
theorem c2_counterexample :
    c2text.data.length = 2006 ∧
      is_academic_question c2text = false ∧
      is_academic_question (pyTake c2text 2000) = true :=
  ⟨by
    show ("research".data ++ List.replicate 1992 'a' ++ "gossip".data).length = 2006
    rw [List.length_append, List.length_append, List.length_replicate]
    decide,
   by decide, by decide⟩

/-- Claim C2, amended: only the document path truncates — for every oracle
and every content, `is_academic_content` yields the same verdict on the
content and on its first 2000 characters (the question path inspects the
full text with no truncation, per `c2_counterexample`). -/
theorem c2_amended (oracle : Oracle) (content : String) :
    is_academic_content oracle content = is_academic_content oracle (pyTake content 2000) := by
  unfold is_academic_content
  have h : pyTake (pyTake content 2000) 2000 = pyTake content 2000 := by
    unfold pyTake
    simp [List.take_take]
  rw [h]

/-- Claim C3: for an academic question and a non-empty extract list in which
every extract is classified NON_ACADEMIC, `generate_response` returns the
fixed "document not academic" refusal with `success = true` and
`is_academic = false`, the generation call is not made, and exactly the
given extracts were classified. -/
theorem c3_doc_refusal (oracle : Oracle) (q : String)
    (docs : List String) (history : List Msg)
    (hq : is_academic_question q = true)
    (hne : docs ≠ [])
    (hall : ∀ d ∈ docs, is_academic_content oracle d = false) :
    generate_response oracle q docs history =
      ⟨⟨true, some non_academic_doc_refusal, some false, none⟩, false, docs⟩ := by
  unfold generate_response
  rw [hq]
  have had : academicDocs oracle docs = [] := by
    unfold academicDocs
    rw [List.filter_eq_nil_iff]
    intro d hd
    simp [hall d hd]
  have hnad : nonAcademicDocs oracle docs = docs := by
    unfold nonAcademicDocs
    rw [List.filter_eq_self]
    intro d hd
    simp [hall d hd]
  simp [had, hnad, hne]

/-- Witness for `c3_doc_refusal`: the spec's resume scenario, with an oracle
that classifies every document NON_ACADEMIC. -/
theorem c3_doc_refusal_witness :
    (is_academic_question "research" = true ∧ (["my resume"] : List String) ≠ [] ∧
      ∀ d ∈ (["my resume"] : List String),
        is_academic_content (fun _ => Except.ok "NON_ACADEMIC") d = false) ∧
    generate_response (fun _ => Except.ok "NON_ACADEMIC") "research" ["my resume"] [] =
      ⟨⟨true, some non_academic_doc_refusal, some false, none⟩, false, ["my resume"]⟩ :=
  ⟨⟨by decide, by decide, by decide⟩,
   c3_doc_refusal (fun _ => Except.ok "NON_ACADEMIC") "research" ["my resume"] []
     (by decide) (by decide) (by decide)⟩

/-- Claim C4: any question containing any non-academic keyword
(case-insensitively) is classified NON_ACADEMIC, regardless of what else it
contains — the non-academic scan runs first and short-circuits. -/
theorem c4_keyword_blocks (q k : String)
    (hk : k ∈ non_academic_keywords)
    (hc : pyContains (pyLower q) k = true) :
    is_academic_question q = false := by
  unfold is_academic_question
  have hany : non_academic_keywords.any (fun k => pyContains (pyLower q) k) = true :=
    List.any_eq_true.mpr ⟨k, hk, hc⟩
  simp [hany]

/-- Witness for `c4_keyword_blocks`: a question containing both the academic
keyword "research" and the non-academic keyword "movie" is still blocked. -/
theorem c4_keyword_blocks_witness :
    ("movie" ∈ non_academic_keywords ∧ "research" ∈ academic_keywords ∧
      pyContains (pyLower "Research on a movie") "movie" = true ∧
      pyContains (pyLower "Research on a movie") "research" = true) ∧
    is_academic_question "Research on a movie" = false :=
  ⟨⟨by decide, by decide, by decide, by decide⟩,
   c4_keyword_blocks "Research on a movie" "movie" (by decide) (by decide)⟩

/-- Helper: the character data of a concatenation is the concatenation of
the character data. -/
theorem string_data_append (s t : String) : (s ++ t).data = s.data ++ t.data := by
  cases s
  cases t
  rfl

/-- Helper: length of the hard-truncation-with-ellipsis of `s` at bound
`m ≥ 3`. -/
theorem ellipsisTrunc_length (s : String) (m : Nat) (h : 3 ≤ m) :
    (pySliceTo s ((m : Int) - 3) ++ "...").data.length = min (m - 3) s.data.length + 3 := by
  unfold pySliceTo
  rw [if_pos (by omega : (0 : Int) ≤ (m : Int) - 3)]
  rw [string_data_append]
  simp [List.length_take]
  congr 1
  omega

/-- Helper: the truncate-if-oversized branch shared by `generate_chat_title`
and `summarize_document` keeps the length within `m` whenever `m ≥ 3`. -/
theorem truncBranch_length_le (s : String) (m : Nat) (h : 3 ≤ m) :
    (if s.data.length > m then pySliceTo s ((m : Int) - 3) ++ "..." else s).data.length ≤ m := by
  by_cases hl : s.data.length > m
  · rw [if_pos hl, ellipsisTrunc_length _ _ h]
    omega
  · rw [if_neg hl]
    omega

/-- Claim C5, counterexample: `summarize_document` does NOT respect the
length bound on external failure — the fallback message embedding the error
text exceeds `max_length = 10`. -/
theorem c5_counterexample :
    summarize_document (fun _ => Except.error "quota exceeded for project") "doc" 10 =
        "Document summary unavailable: quota exceeded for project" ∧
      ("Document summary unavailable: quota exceeded for project" : String).data.length > 10 :=
  ⟨rfl, by decide⟩

/-- Claim C5, amended: for `max_length ≥ 3`, `generate_chat_title` returns
at most `max_length` characters under every external behavior (oversized
replies hard-truncated with a trailing ellipsis, failures falling back to
the truncated first message); `summarize_document` obeys the same bound
whenever the external call succeeds — on failure it returns the fixed
unavailable-message embedding the error text, which may exceed the bound
(`c5_counterexample`). -/
theorem c5_amended (oracle : Oracle) (msg content : String) (max_length : Nat)
    (h : 3 ≤ max_length) :
    (generate_chat_title oracle msg max_length).data.length ≤ max_length ∧
    (∀ r, oracle (summaryPrompt content max_length) = .ok r →
       (summarize_document oracle content max_length).data.length ≤ max_length) := by
  constructor
  · unfold generate_chat_title
    cases ho : oracle (titlePrompt msg max_length) with
    | ok t =>
      show (if (pyStrip t).data.length > max_length then
          pySliceTo (pyStrip t) ((max_length : Int) - 3) ++ "..." else pyStrip t).data.length
          ≤ max_length
      exact truncBranch_length_le _ _ h
    | error e =>
      show (if msg.data.length > max_length then
          pySliceTo msg ((max_length : Int) - 3) ++ "..." else msg).data.length ≤ max_length
      exact truncBranch_length_le _ _ h
  · intro r hr
    unfold summarize_document
    rw [hr]
    show (if (pyStrip r).data.length > max_length then
        pySliceTo (pyStrip r) ((max_length : Int) - 3) ++ "..." else pyStrip r).data.length
        ≤ max_length
    exact truncBranch_length_le _ _ h

/-- Witness for `c5_amended` at `max_length = 5`: oversized reply, failing
call (title), and successful oversized reply (summary). -/
theorem c5_amended_witness :
    (3 ≤ 5 ∧
      (generate_chat_title (fun _ => Except.ok "a rather long reply") "first message" 5).data.length ≤ 5) ∧
    (generate_chat_title (fun _ => Except.error "boom") "a rather long first message" 5).data.length ≤ 5 ∧
    (summarize_document (fun _ => Except.ok "a rather long reply") "some content" 5).data.length ≤ 5 :=
  ⟨⟨by decide,
    (c5_amended (fun _ => Except.ok "a rather long reply") "first message" "some content" 5 (by decide)).1⟩,
   (c5_amended (fun _ => Except.error "boom") "a rather long first message" "some content" 5 (by decide)).1,
   (c5_amended (fun _ => Except.ok "a rather long reply") "first message" "some content" 5 (by decide)).2
     "a rather long reply" rfl⟩

/-- Claim C6: when the history is longer than 10 turns, the assembled
context contains, after the "Previous Conversation:" header, exactly the
rendered last 10 turns — the final segment of the history in original
order (`take (n-10) ++ drop (n-10) = history` exhibits the window as the
tail segment, and its length is exactly 10), so no earlier turn appears. -/
theorem c6_history_window (oracle : Oracle) (q : String) (docs : List String)
    (history : List Msg) (h : 10 < history.length) :
    contextParts oracle q docs history =
      [system_prompt] ++ docParts (academicDocs oracle docs)
        ++ ("\\n\\nPrevious Conversation:"
              :: (history.drop (history.length - 10)).map renderMsg)
        ++ ["\\n\\nCurrent Question: " ++ q,
            "\\n\\nPlease provide a comprehensive, academic response:"]
      ∧ (history.drop (history.length - 10)).length = 10
      ∧ history.take (history.length - 10) ++ history.drop (history.length - 10) = history := by
  have hne : history.isEmpty = false := by
    cases history with
    | nil => simp at h
    | cons a t => rfl
  refine ⟨?_, ?_, ?_⟩
  · simp [contextParts, historyParts, pyLastSlice, hne]
  · rw [List.length_drop]
    omega
  · exact List.take_append_drop _ _

/-- Witness for `c6_history_window` on an 11-turn history. -/
theorem c6_history_window_witness :
    10 < histW.length ∧
    (contextParts (fun _ => Except.error "e") "q" [] histW =
      [system_prompt] ++ docParts (academicDocs (fun _ => Except.error "e") [])
        ++ ("\\n\\nPrevious Conversation:"
              :: (histW.drop (histW.length - 10)).map renderMsg)
        ++ ["\\n\\nCurrent Question: " ++ "q",
            "\\n\\nPlease provide a comprehensive, academic response:"]
      ∧ (histW.drop (histW.length - 10)).length = 10
      ∧ histW.take (histW.length - 10) ++ histW.drop (histW.length - 10) = histW) :=
  ⟨by decide, c6_history_window (fun _ => Except.error "e") "q" [] histW (by decide)⟩

/-- Claim C7: a question classified NON_ACADEMIC makes `generate_response`
return the fixed off-topic refusal immediately with `success = true` and
`is_academic = false`, with no extract classified and no generation call. -/
theorem c7_off_topic (oracle : Oracle) (q : String)
    (docs : List String) (history : List Msg)
    (hq : is_academic_question q = false) :
    generate_response oracle q docs history =
      ⟨⟨true, some off_topic_refusal, some false, none⟩, false, []⟩ := by
  unfold generate_response
  rw [hq]
  simp

/-- Witness for `c7_off_topic`: an off-topic question with a document and a
history present. -/
theorem c7_off_topic_witness :
    is_academic_question "Top movie?" = false ∧
      generate_response (fun _ => Except.error "never called") "Top movie?" ["some doc"]
          [⟨"user", "hi"⟩] =
        ⟨⟨true, some off_topic_refusal, some false, none⟩, false, []⟩ :=
  ⟨by decide,
   c7_off_topic (fun _ => Except.error "never called") "Top movie?" ["some doc"]
     [⟨"user", "hi"⟩] (by decide)⟩

/-- Claim C8: a question containing no keyword of either set and matching
none of the structural patterns is classified ACADEMIC (inclusive
default). -/
theorem c8_default_academic (q : String)
    (h1 : ∀ k ∈ non_academic_keywords, pyContains (pyLower q) k = false)
    (h2 : ∀ k ∈ academic_keywords, pyContains (pyLower q) k = false)
    (h3 : ∀ p ∈ academic_patterns, reSearch p (pyLower q) = false) :
    is_academic_question q = true := by
  unfold is_academic_question
  have e1 : non_academic_keywords.any (fun k => pyContains (pyLower q) k) = false := by
    rw [List.any_eq_false]
    intro k hk
    simp [h1 k hk]
  have e2 : academic_keywords.any (fun k => pyContains (pyLower q) k) = false := by
    rw [List.any_eq_false]
    intro k hk
    simp [h2 k hk]
  have e3 : academic_patterns.any (fun p => reSearch p (pyLower q)) = false := by
    rw [List.any_eq_false]
    intro p hp
    simp [h3 p hp]
  simp [e1, e2, e3]

/-- Witness for `c8_default_academic`: "hello world" matches nothing and is
allowed through. -/
theorem c8_default_academic_witness :
    ((∀ k ∈ non_academic_keywords, pyContains (pyLower "hello world") k = false) ∧
     (∀ k ∈ academic_keywords, pyContains (pyLower "hello world") k = false) ∧
     (∀ p ∈ academic_patterns, reSearch p (pyLower "hello world") = false)) ∧
    is_academic_question "hello world" = true :=
  ⟨⟨by decide, by decide, by decide⟩,
   c8_default_academic "hello world" (by decide) (by decide) (by decide)⟩

/-- Claim C9: in the `send_message` flow with a non-empty message, an
existing chat and a successful user-message insert, a generation failure
yields an error response with the user's message persisted and no assistant
message created; and on every input, an assistant message is persisted only
when generation succeeded. -/
theorem c9_send_message_failure (env : SendEnv) (oracle : Oracle) (c : String)
    (h1 : (smContent c).data.isEmpty = false)
    (h2 : env.chat_exists = true)
    (h3 : env.create_message (smContent c) "user" (env.last_order + 1) = true)
    (h4 : (smAI env oracle c).result.success = false) :
    send_message env oracle (some c) =
      (.serverError (((smAI env oracle c).result.error).getD ""),
       [.createMessage (smContent c) "user" (env.last_order + 1)])
    ∧ ∀ (env' : SendEnv) (oracle' : Oracle) (c' r : String) (o : Int),
        Op.createMessage r "assistant" o ∈ (send_message env' oracle' (some c')).2 →
        (smAI env' oracle' c').result.success = true := by
  constructor
  · unfold send_message
    simp [h1, h2, h3, h4]
  · intro env' oracle' c' r o hmem
    by_cases e4 : (smAI env' oracle' c').result.success
    · exact e4
    · exfalso
      rw [Bool.not_eq_true] at e4
      unfold send_message at hmem
      simp [e4] at hmem
      repeat (split at hmem <;> simp_all)

/-- Witness for `c9_send_message_failure`: a generation failure (failing
oracle) on an academic question leaves exactly the persisted user message
and a server error. -/
theorem c9_send_message_failure_witness :
    ((smContent "research").data.isEmpty = false ∧ envW.chat_exists = true ∧
      envW.create_message (smContent "research") "user" (envW.last_order + 1) = true ∧
      (smAI envW (fun _ => Except.error "boom") "research").result.success = false) ∧
    send_message envW (fun _ => Except.error "boom") (some "research") =
      (.serverError (((smAI envW (fun _ => Except.error "boom") "research").result.error).getD ""),
       [.createMessage (smContent "research") "user" (envW.last_order + 1)]) :=
  ⟨⟨by decide, rfl, rfl, by decide⟩,
   (c9_send_message_failure envW (fun _ => Except.error "boom") "research"
     (by decide) rfl rfl (by decide)).1⟩

/-- Claim C10: the question classifier is case-insensitive — any two
questions with the same lowercasing receive the same verdict — and, being a
pure function of the question alone (no oracle parameter), it is
deterministic and performs no external call. -/
theorem c10_case_insensitive (q₁ q₂ : String)
    (h : pyLower q₁ = pyLower q₂) :
    is_academic_question q₁ = is_academic_question q₂ := by
  unfold is_academic_question
  rw [h]

/-- Witness for `c10_case_insensitive` on two case variants of the same
text. -/
theorem c10_case_insensitive_witness :
    pyLower "MOVIE Night" = pyLower "movie nIGHT" ∧
      is_academic_question "MOVIE Night" = is_academic_question "movie nIGHT" :=
  ⟨by decide, c10_case_insensitive "MOVIE Night" "movie nIGHT" (by decide)⟩
